import Mathlib

/-!
Verification of the auto-reply engine of BilibiliAutoCC.

This file gives a shallow embedding, in Lean, of the parts of
`bilibili_gui/core/message_manager.py` and `bilibili_gui/utils/database.py`
that drive the auto-reply engine: the rule matcher `match_auto_reply`
(message_manager.py lines 297-394), the SQL rule fetch
`get_auto_reply_rules` (database.py lines 271-315), the message identity
`_generate_message_id` (lines 983-996), the per-message pipeline of
`_auto_reply_worker` (lines 698-834) with its dedup set, age gate, daily
limit, delivery and logging steps, and the logging method `log_auto_reply`
with `_update_stats` (database.py lines 135-211).

Modelling conventions.

External Python libraries (`re`, `difflib.SequenceMatcher`, `json`) are
collaborators: they enter as an explicit record of oracle functions
(`PyLibs`).  A call to `re.search` either returns a boolean or raises
`re.error` on a malformed pattern; this is the `ReOutcome` type.

Python attribute lookup on `self` and on the database object is dynamic.
The worker reads `self.min_delay` (line 787) and calls
`self.db.add_reply_log(...)` (lines 803 and 817).  Neither name exists:
`MessageManager` only ever assigns the attributes listed in
`managerAttrNames` (its config fields are `reply_delay_min` and
`reply_delay_max`), and `AutoReplyDatabase` only defines the methods
listed in `databaseMethodNames` (its logging method is `log_auto_reply`).
Both lookups therefore raise `AttributeError`, which the per-message
handler at line 831 catches.  The embedding renders each such lookup as a
membership test against the transcribed name list, with the failing branch
producing the `errorCaught` outcome.

The Python `set` of processed message ids is modelled as an
insertion-ordered duplicate-free list.  The expression
`list(self.processed_messages)` at line 745 enumerates a hash set in an
order that is unrelated to insertion order (CPython string hashing is even
randomized per process); the enumeration is therefore a parameter
`setOrderOf`, constrained only to be a permutation where a proof needs it.

Machine integers do not overflow in any quantity modelled here, so
timestamps, counters and priorities are plain `Int` / `Nat`.
-/

/- ### Rules and the rule matcher -/

/-- One row of the `auto_reply_rules` table (database.py lines 65-79),
as returned by `get_auto_reply_rules`. -/
structure Rule where
  id : Int
  keyword : String
  reply_content : String
  match_type : String
  case_sensitive : Bool
  enabled : Bool
  priority : Int
  created_time : Nat
deriving Repr, DecidableEq

/-- Result of `re.search`: a boolean, or an exception (`re.error` for a
malformed pattern). -/
inductive ReOutcome where
  | ok (found : Bool)
  | err
deriving Repr, DecidableEq

/-- External Python library collaborators used by the matcher and the
message parser: `re.search` (pattern, text, ignore-case flag),
`re.escape`, `difflib.SequenceMatcher(None, a, b).ratio()`, and the
`json.loads(raw).get("content", "")` extraction used on message content
(`none` models a decode failure, in which case the code falls back to the
raw content). -/
structure PyLibs where
  reSearch : String → String → Bool → ReOutcome
  reEscape : String → String
  ratioOf : String → String → Rat
  jsonContent : String → Option String

/-- Python `str.strip()` with no argument: drop leading and trailing
whitespace.  Defined over the character list so that it evaluates inside
the kernel. -/
def pyStrip (s : String) : String :=
  String.mk (((s.toList.dropWhile Char.isWhitespace).reverse.dropWhile
    Char.isWhitespace).reverse)

/-- Python `str.lower()`, characterwise. -/
def pyLower (s : String) : String :=
  String.mk (s.toList.map Char.toLower)

/-- Python `str.startswith`. -/
def pyStartsWith (s pre : String) : Bool :=
  pre.toList.isPrefixOf s.toList

/-- Python `str.endswith`. -/
def pyEndsWith (s suf : String) : Bool :=
  suf.toList.isSuffixOf s.toList

/-- Python substring test `needle in hay`. -/
def strHasSub (hay needle : String) : Bool :=
  (List.range (hay.toList.length + 1)).any fun i =>
    needle.toList.isPrefixOf (hay.toList.drop i)

/-- Helper of `pySplitWs`: scan the characters, accumulating the current
word reversed. -/
def splitWsAux : List Char → List Char → List String
  | [], acc => if acc = [] then [] else [String.mk acc.reverse]
  | c :: cs, acc =>
    if Char.isWhitespace c then
      if acc = [] then splitWsAux cs []
      else String.mk acc.reverse :: splitWsAux cs []
    else splitWsAux cs (c :: acc)

/-- Python `str.split()` with no argument: split on whitespace runs,
dropping empty pieces. -/
def pySplitWs (s : String) : List String :=
  splitWsAux s.toList []

/-- Pattern built for the `word_boundary` match kind (line 352):
`r"\b" + re.escape(keyword) + r"\b"`. -/
def wordBoundaryPattern (libs : PyLibs) (kw : String) : String :=
  "\\b" ++ libs.reEscape kw ++ "\\b"

/-- Per-rule match outcome of one iteration of the rule loop of
`match_auto_reply` (message_manager.py lines 317-388).  `false` covers the
three ways an iteration can decline a rule: an empty-after-strip keyword
(line 319 `continue`), a predicate that evaluates to false, and a per-rule
exception (line 386-388 `continue`), which for this code means `re.error`
from a malformed pattern. -/
def ruleMatchesB (libs : PyLibs) (message_text : String) (r : Rule) : Bool :=
  let keyword := pyStrip r.keyword
  if keyword = "" then false
  else
    let text_to_match := if r.case_sensitive then message_text else pyLower message_text
    let keyword_to_match := if r.case_sensitive then keyword else pyLower keyword
    if r.match_type = "exact" then pyStrip text_to_match == pyStrip keyword_to_match
    else if r.match_type = "contains" then strHasSub text_to_match keyword_to_match
    else if r.match_type = "startswith" then pyStartsWith text_to_match keyword_to_match
    else if r.match_type = "endswith" then pyEndsWith text_to_match keyword_to_match
    else if r.match_type = "regex" then
      match libs.reSearch keyword message_text (!r.case_sensitive) with
      | ReOutcome.ok found => found
      | ReOutcome.err => false
    else if r.match_type = "word_boundary" then
      match libs.reSearch (wordBoundaryPattern libs keyword_to_match) text_to_match
          (!r.case_sensitive) with
      | ReOutcome.ok found => found
      | ReOutcome.err => false
    else if r.match_type = "fuzzy" then
      decide ((0.8 : Rat) ≤ libs.ratioOf text_to_match keyword_to_match)
    else if r.match_type = "fuzzy_contains" then
      if keyword_to_match.length ≤ 3 then strHasSub text_to_match keyword_to_match
      else (pySplitWs keyword_to_match).any fun w =>
        decide (1 < w.length) && strHasSub text_to_match w
    else false

/-- Predicate: evaluating rule `r` against `message_text` raises inside
the per-rule `try` block (lines 337-385), i.e. the rule is a `regex` or
`word_boundary` rule whose pattern makes `re.search` raise. -/
def ruleRaises (libs : PyLibs) (message_text : String) (r : Rule) : Bool :=
  let keyword := pyStrip r.keyword
  if keyword = "" then false
  else
    let text_to_match := if r.case_sensitive then message_text else pyLower message_text
    let keyword_to_match := if r.case_sensitive then keyword else pyLower keyword
    if r.match_type = "regex" then
      libs.reSearch keyword message_text (!r.case_sensitive) == ReOutcome.err
    else if r.match_type = "word_boundary" then
      libs.reSearch (wordBoundaryPattern libs keyword_to_match) text_to_match
          (!r.case_sensitive) == ReOutcome.err
    else false

/-- The dictionary returned by `match_auto_reply` on a match
(lines 377-384). -/
structure MatchResult where
  keyword : String
  keyword_matched : String
  reply_content : String
  match_type : String
  rule_id : Int
  priority : Int
deriving Repr, DecidableEq

/-- Builds the returned dictionary for a matched rule (lines 377-384);
the `keyword` field holds the stripped keyword local of line 318. -/
def mkMatchResult (r : Rule) : MatchResult :=
  { keyword := pyStrip r.keyword
    keyword_matched := pyStrip r.keyword
    reply_content := r.reply_content
    match_type := r.match_type
    rule_id := r.id
    priority := r.priority }

/-- The rule loop of `match_auto_reply` (lines 317-390): return the first
rule an iteration accepts, else `None`. -/
def matchLoop (libs : PyLibs) (message_text : String) : List Rule → Option MatchResult
  | [] => none
  | r :: rest =>
    if ruleMatchesB libs message_text r then some (mkMatchResult r)
    else matchLoop libs message_text rest

/-- SQL ordering `ORDER BY priority DESC, created_time ASC` of the rule
query (database.py line 297), as a may-precede relation. -/
def sqlRuleLe (a b : Rule) : Prop :=
  b.priority < a.priority ∨ (a.priority = b.priority ∧ a.created_time ≤ b.created_time)

instance : DecidableRel sqlRuleLe := fun a b => by
  unfold sqlRuleLe; infer_instance

/-- Embedding of `AutoReplyDatabase.get_auto_reply_rules` (database.py
lines 271-315): the table is already per account; keep only enabled rules
when asked, and order by priority descending then creation time
ascending.  SQL ordering and Python list.sort are both stable, which the
stable `insertionSort` mirrors. -/
def get_auto_reply_rules (table : List Rule) (enabled_only : Bool) : List Rule :=
  List.insertionSort sqlRuleLe (if enabled_only then table.filter fun r => r.enabled else table)

/-- Comparison used by the in-matcher re-sort
`rules.sort(key=lambda x: x.get('priority', 0), reverse=True)` at
line 314. -/
def pyPrioLe (a b : Rule) : Prop :=
  b.priority ≤ a.priority

instance : DecidableRel pyPrioLe := fun a b => by
  unfold pyPrioLe; infer_instance

instance : IsTotal Rule sqlRuleLe :=
  ⟨fun a b => by unfold sqlRuleLe; omega⟩

instance : IsTrans Rule sqlRuleLe :=
  ⟨fun a b c h1 h2 => by
    unfold sqlRuleLe at h1 h2 ⊢
    omega⟩

instance : IsTotal Rule pyPrioLe :=
  ⟨fun a b => by unfold pyPrioLe; omega⟩

instance : IsTrans Rule pyPrioLe :=
  ⟨fun a b c h1 h2 => by
    unfold pyPrioLe at h1 h2 ⊢
    omega⟩

/-- Embedding of `MessageManager.match_auto_reply` (message_manager.py
lines 297-394): empty or whitespace-only text returns `None` (line 300);
otherwise fetch the enabled rules, re-sort them by priority (stable, as
Python list.sort is), and run the rule loop.  The outer `try` of
lines 299-394 makes the function total: every path returns a value. -/
def match_auto_reply (libs : PyLibs) (message_text : String) (table : List Rule) :
    Option MatchResult :=
  if pyStrip message_text = "" then none
  else matchLoop libs message_text
    (List.insertionSort pyPrioLe (get_auto_reply_rules table true))

/- ### Message identity -/

/-- One raw inbound message as consumed by the worker: the fields the code
reads via `msg.get(...)` (lines 703-705, 750, 985-989). -/
structure Msg where
  sender_uid : Int
  msg_type : Int
  timestamp : Int
  content : String
  msg_key : Int
  msg_seqno : Int
deriving Repr, DecidableEq

/-- Embedding of `_generate_message_id` (lines 983-996): an f-string over
talker id, sender, timestamp, message key, sequence number, and the first
8 hex digits of the md5 of the content.  The md5 digest is an external
pure function passed as `md5hex8`. -/
def generate_message_id (md5hex8 : String → String) (talker_id : Int) (m : Msg) : String :=
  toString talker_id ++ "_" ++ toString m.sender_uid ++ "_" ++ toString m.timestamp ++ "_" ++
    toString m.msg_key ++ "_" ++ toString m.msg_seqno ++ "_" ++ md5hex8 m.content

/- ### Dynamic attribute tables -/

/-- Every attribute ever assigned on `self` in class `MessageManager`
(core/message_manager.py), transcribed: `__init__` lines 34-75,
`load_account_config` lines 81-92, `_update_today_count` lines 116-120,
`start_auto_reply_listener` / `stop_auto_reply_listener`,
`_should_clear_logs` line 949, `set_gui_log_callback` line 1004.
Note that `min_delay` and `max_delay` are not among them: the
configuration fields are `reply_delay_min` and `reply_delay_max`. -/
def managerAttrNames : List String :=
  ["login_handler", "account_uid", "session", "auto_reply_enabled",
   "listening_thread", "stop_listening", "sessions_cache", "messages_cache",
   "db", "reply_delay_min", "reply_delay_max", "daily_limit", "scan_interval",
   "account_config", "today_reply_count", "processed_messages",
   "replied_messages", "my_recent_replies", "message_lock", "log_count",
   "last_log_clear", "gui_log_callback"]

/-- Every method defined by class `AutoReplyDatabase`
(utils/database.py), transcribed from the class body.  Note that
`add_reply_log` is not among them: the logging method is
`log_auto_reply`. -/
def databaseMethodNames : List String :=
  ["__init__", "init_database", "log_auto_reply", "_update_stats",
   "save_auto_reply_rule", "get_auto_reply_rules", "delete_auto_reply_rule",
   "toggle_rule_status", "save_account_config", "get_account_config",
   "get_reply_logs", "get_reply_stats", "delete_old_logs",
   "get_daily_stats", "get_keyword_stats"]

/- ### Persistence collaborator state -/

/-- One row of `auto_reply_logs` (database.py lines 37-49). -/
structure LogEntry where
  account_uid : String
  sender_uid : String
  received_message : String
  reply_message : String
  keyword_matched : String
  match_type : String
  created_time : Int
  session_type : Int
deriving Repr, DecidableEq

/-- The per-account row of `auto_reply_stats` (database.py lines 52-62). -/
structure StatsRow where
  total_replies : Int
  today_replies : Int
  last_reply_time : Int
  last_update_date : String
deriving Repr, DecidableEq

/-- Persistence collaborator state for one account: the log rows and the
optional stats row. -/
structure DbState where
  logs : List LogEntry
  stats : Option StatsRow
deriving Repr, DecidableEq

/-- Embedding of `AutoReplyDatabase._update_stats` (database.py
lines 179-211): on a date change reset the daily counter, then add one to
both counters; create the row at `(1, 1)` when absent. -/
def update_stats (today : String) (current_time : Int) (stats : Option StatsRow) : StatsRow :=
  match stats with
  | some s =>
    let today_replies := if s.last_update_date ≠ today then 0 else s.today_replies
    { total_replies := s.total_replies + 1
      today_replies := today_replies + 1
      last_reply_time := current_time
      last_update_date := today }
  | none =>
    { total_replies := 1
      today_replies := 1
      last_reply_time := current_time
      last_update_date := today }

/-- Embedding of `AutoReplyDatabase.log_auto_reply` (database.py
lines 135-177): insert the log row, then update the statistics. -/
def log_auto_reply (today : String) (current_time : Int) (e : LogEntry) (db : DbState) :
    DbState :=
  { logs := db.logs ++ [e], stats := some (update_stats today current_time db.stats) }

/-- Embedding of `MessageManager._update_today_count` (message_manager.py
lines 109-120): read the stats row and take its daily counter when its
date is today, else 0. -/
def update_today_count (today : String) (db : DbState) : Int :=
  match db.stats with
  | some s => if s.last_update_date = today then s.today_replies else 0
  | none => 0

/- ### Worker state and the per-message pipeline -/

/-- In-memory worker state: the processed (dedup) set and replied set,
modelled as insertion-ordered duplicate-free lists, and the cached daily
counter. -/
structure WorkerState where
  processed_messages : List String
  replied_messages : List String
  today_reply_count : Int
deriving Repr, DecidableEq

/-- Outcome of the per-message pipeline for one message. `errorCaught`
is the per-message exception handler of line 831. -/
inductive Outcome where
  | skippedOwn
  | skippedNonText
  | skippedDup
  | skippedStale
  | skippedEmptyRaw
  | skippedEmptyParsed
  | noMatch
  | limited
  | errorCaught (detail : String)
  | repliedOk
  | replyFailed (err : String)
deriving Repr, DecidableEq

/-- One call of the transport `send_message` as observed from outside:
receiver, content, receiver type (lines 792-796). -/
structure SendRec where
  receiver_id : Int
  content : String
  receiver_type : Int
deriving Repr, DecidableEq

/-- Environment of one scan cycle: account id, the cycle timestamp taken
at line 619, the account configuration in use, the rule table, the
library oracles, the hash-set enumeration order, the transport outcome,
and the current date string. -/
structure Env where
  account_uid : String
  current_time : Int
  daily_limit : Int
  rules : List Rule
  libs : PyLibs
  md5hex8 : String → String
  setOrderOf : List String → List String
  sendResult : Int → String → Bool × String
  today : String

/-- Result of running the pipeline on one message. -/
structure StepResult where
  st : WorkerState
  db : DbState
  sends : List SendRec
  outcome : Outcome
deriving Repr, DecidableEq

/-- Attribute name the worker reads at line 787 for the delay lower
bound. -/
def minDelayName : String := "min_delay"

/-- Method name the worker tries to call on the database object at
lines 803 and 817. -/
def addReplyLogName : String := "add_reply_log"

/-- Detail string of the `AttributeError` raised at line 787 when the
worker reads the never-assigned `self.min_delay`. -/
def attrErrMinDelay : String := "AttributeError: min_delay"

/-- Detail string of the `AttributeError` raised at lines 803 and 817
when the worker calls the nonexistent `self.db.add_reply_log`. -/
def attrErrAddReplyLog : String := "AttributeError: add_reply_log"

/-- Embedding of lines 739-747: insert the id into the processed set,
then, if the set now holds more than 1000 ids, discard the first 500 ids
of `list(self.processed_messages)` - the enumeration `setOrderOf` of the
hash set, which is unrelated to insertion order. -/
def mark_processed (setOrderOf : List String → List String)
    (processed : List String) (msg_id : String) : List String :=
  let processed := processed ++ [msg_id]
  if 1000 < processed.length then
    let old_messages := (setOrderOf processed).take 500
    processed.filter fun x => decide (x ∉ old_messages)
  else processed

/-- Fallback parse of message content (lines 756-764): take the `content`
field of the decoded JSON, or the raw string when decoding fails. -/
def parsed_message_text (libs : PyLibs) (content_raw : String) : String :=
  match libs.jsonContent content_raw with
  | some t => t
  | none => content_raw

/-- Embedding of the delivery-and-record block, lines 791-830: call
`send_message`; on success add the id to the replied set (lines 800-801)
and then call `self.db.add_reply_log(...)` followed by
`self._update_today_count()` (lines 803-813); on failure call
`self.db.add_reply_log(...)` with the error (lines 817-825).  The method
name `add_reply_log` is resolved against `databaseMethodNames`; as the
class defines no such method the lookup raises `AttributeError`, caught by
the per-message handler.  The branch under a successful lookup transcribes
what the surrounding code asks for (the nearest real method being
`log_auto_reply`) and is provably unreachable. -/
def deliver_and_record (env : Env) (talker_id session_type : Int) (msg_id : String)
    (message_text reply_content : String) (st : WorkerState) (db : DbState) : StepResult :=
  let sendOut := env.sendResult talker_id reply_content
  let sends := [{ receiver_id := talker_id, content := reply_content,
                  receiver_type := session_type : SendRec }]
  if sendOut.1 then
    let st1 := { st with replied_messages := st.replied_messages ++ [msg_id] }
    if addReplyLogName ∈ databaseMethodNames then
      let entry : LogEntry :=
        { account_uid := env.account_uid
          sender_uid := toString talker_id
          received_message := message_text
          reply_message := reply_content
          keyword_matched := ""
          match_type := ""
          created_time := env.current_time
          session_type := session_type }
      let db1 := log_auto_reply env.today env.current_time entry db
      { st := { st1 with today_reply_count := update_today_count env.today db1 }
        db := db1, sends := sends, outcome := Outcome.repliedOk }
    else
      { st := st1, db := db, sends := sends,
        outcome := Outcome.errorCaught attrErrAddReplyLog }
  else
    if addReplyLogName ∈ databaseMethodNames then
      let entry : LogEntry :=
        { account_uid := env.account_uid
          sender_uid := toString talker_id
          received_message := message_text
          reply_message := reply_content
          keyword_matched := ""
          match_type := ""
          created_time := env.current_time
          session_type := session_type }
      { st := st, db := log_auto_reply env.today env.current_time entry db,
        sends := sends, outcome := Outcome.replyFailed sendOut.2 }
    else
      { st := st, db := db, sends := sends,
        outcome := Outcome.errorCaught attrErrAddReplyLog }

/-- Embedding of the per-message pipeline, lines 698-834, in source
order: skip own messages (line 713), skip non-text (line 718), compute
the id (line 723), skip already-processed ids (line 728), skip messages
older than 24 hours (line 735), mark processed with bounded eviction
(lines 740-747), skip empty raw content (line 752), parse the content
with raw fallback (lines 757-764), skip whitespace-only text (line 766),
match rules (line 774), stop at the daily limit (lines 781-784), then
read `self.min_delay` for the randomized delay (line 787) - an attribute
`MessageManager` never assigns, so the read raises `AttributeError` and
the handler of line 831 swallows the message; the delivery block is only
reachable if that lookup were to succeed. -/
def process_message (env : Env) (talker_id session_type : Int)
    (st : WorkerState) (db : DbState) (m : Msg) : StepResult :=
  if toString m.sender_uid = env.account_uid then
    { st := st, db := db, sends := [], outcome := Outcome.skippedOwn }
  else if m.msg_type ≠ 1 then
    { st := st, db := db, sends := [], outcome := Outcome.skippedNonText }
  else
    let msg_id := generate_message_id env.md5hex8 talker_id m
    if msg_id ∈ st.processed_messages then
      { st := st, db := db, sends := [], outcome := Outcome.skippedDup }
    else if 86400 < env.current_time - m.timestamp then
      { st := st, db := db, sends := [], outcome := Outcome.skippedStale }
    else
      let st1 := { st with
        processed_messages := mark_processed env.setOrderOf st.processed_messages msg_id }
      if m.content = "" then
        { st := st1, db := db, sends := [], outcome := Outcome.skippedEmptyRaw }
      else
        let message_text := parsed_message_text env.libs m.content
        if pyStrip message_text = "" then
          { st := st1, db := db, sends := [], outcome := Outcome.skippedEmptyParsed }
        else
          match match_auto_reply env.libs (pyStrip message_text) env.rules with
          | none =>
            { st := st1, db := db, sends := [], outcome := Outcome.noMatch }
          | some rr =>
            if 0 < env.daily_limit ∧ env.daily_limit ≤ st1.today_reply_count then
              { st := st1, db := db, sends := [], outcome := Outcome.limited }
            else if minDelayName ∈ managerAttrNames then
              deliver_and_record env talker_id session_type msg_id message_text
                rr.reply_content st1 db
            else
              { st := st1, db := db, sends := [],
                outcome := Outcome.errorCaught attrErrMinDelay }

/-- Runs the pipeline over the fetched message list of one session
(the inner loop at line 698), collecting each message outcome and its
transport calls. -/
def process_messages (env : Env) (talker_id session_type : Int) :
    WorkerState → DbState → List Msg → WorkerState × DbState × List (Outcome × List SendRec)
  | st, _db, [] => (st, _db, [])
  | st, db, m :: ms =>
    let res := process_message env talker_id session_type st db m
    let rest := process_messages env talker_id session_type res.st res.db ms
    (rest.1, rest.2.1, (res.outcome, res.sends) :: rest.2.2)

/- ### Scan-cycle sleep selection -/

/-- Snapshot of one entry of the fetched session list, with the fields
the worker reads (lines 654-655). -/
structure SessionStub where
  talker_id : Int
  session_type : Int
deriving Repr, DecidableEq

/-- Result of the session-list fetch at the top of a cycle (line 608). -/
inductive SessionsFetch where
  | fetchFailed (err : String)
  | fetched (sessions : List SessionStub)
deriving Repr, DecidableEq

/-- The sleep, in seconds, with which one iteration of
`_auto_reply_worker` ends, by branch: fetch failure sleeps 10 (line 611),
an empty session list sleeps the literal 8 of line 616, and a normal
cycle sleeps the configured scan interval (line 841). -/
def iteration_sleep_seconds (scan_interval : Int) : SessionsFetch → Int
  | SessionsFetch.fetchFailed _ => 10
  | SessionsFetch.fetched [] => 8
  | SessionsFetch.fetched (_ :: _) => scan_interval

/- ### Concrete fixtures used by witnesses and counterexamples -/

/-- Concrete md5 stand-in: a fixed digest function for witnesses. -/
def cMd5 : String → String := fun _ => "0a0b0c0d"

/-- Malformed regex used by witnesses: an unbalanced group. -/
def badPattern : String := "(unclosed"

/-- Concrete library oracles for witnesses: `re.search` raises exactly on
the malformed pattern and otherwise finds nothing, similarity is 0, and
JSON decoding always fails (raw fallback). -/
def cLibs : PyLibs :=
  { reSearch := fun p _t _ic => if p = badPattern then ReOutcome.err else ReOutcome.ok false
    reEscape := fun s => s
    ratioOf := fun _ _ => 0
    jsonContent := fun _ => none }

/-- Fixture rule A of the spec: priority 5, contains "a". -/
def ruleA : Rule :=
  { id := 1, keyword := "a", reply_content := "replyA", match_type := "contains",
    case_sensitive := false, enabled := true, priority := 5, created_time := 1 }

/-- Fixture rule B of the spec: priority 10, exact "cat". -/
def ruleB : Rule :=
  { id := 2, keyword := "cat", reply_content := "replyB", match_type := "exact",
    case_sensitive := false, enabled := true, priority := 10, created_time := 2 }

/-- Fixture rule with a malformed regex pattern. -/
def badRegexRule : Rule :=
  { id := 3, keyword := badPattern, reply_content := "replyBad", match_type := "regex",
    case_sensitive := false, enabled := true, priority := 9, created_time := 3 }

/-- Fixture contains-rule on "hello". -/
def helloRule : Rule :=
  { id := 4, keyword := "hello", reply_content := "hi there", match_type := "contains",
    case_sensitive := false, enabled := true, priority := 0, created_time := 4 }

/-- Fixture fresh text message with content "hello". -/
def cMsg : Msg :=
  { sender_uid := 42, msg_type := 1, timestamp := 999000, content := "hello",
    msg_key := 7, msg_seqno := 8 }

/-- Fixture stale text message: 90000 seconds old at cycle time 1000000,
the 25-hour example of the spec. -/
def staleMsg : Msg :=
  { sender_uid := 42, msg_type := 1, timestamp := 910000, content := "hello",
    msg_key := 9, msg_seqno := 10 }

/-- Fixture environment: account 100, cycle time 1000000, limit 100,
one contains-rule, transport always succeeds, empty set enumeration. -/
def cEnv : Env :=
  { account_uid := "100", current_time := 1000000, daily_limit := 100,
    rules := [helloRule], libs := cLibs, md5hex8 := cMd5,
    setOrderOf := fun _ => [], sendResult := fun _ _ => (true, ""),
    today := "2026-10-12" }

/-- Fixture empty worker state. -/
def st0 : WorkerState :=
  { processed_messages := [], replied_messages := [], today_reply_count := 0 }

/-- Fixture empty persistence state. -/
def db0 : DbState := { logs := [], stats := none }

/-- Identity of `cMsg` under the fixture hash for talker 5. -/
def cMsgId : String := generate_message_id cMd5 5 cMsg

/-- Worker state that has already processed `cMsgId`. -/
def stDup : WorkerState :=
  { processed_messages := [cMsgId], replied_messages := [], today_reply_count := 0 }

/-- A full processed set of 1000 distinct ids, in insertion order. -/
def testIds : List String :=
  (List.range 1000).map fun i => "m" ++ toString i

/-- The id inserted on top of the full `testIds` set. -/
def newId : String := "new"

/-- Fixture message text. -/
def helloText : String := "hello"

/-- Fixture reply text. -/
def replyText : String := "hi there"

/-- Fixture text for the priority example of the spec. -/
def catText : String := "cat"

/-- Fixture whitespace-only text. -/
def blankText : String := "   "

/- ### Theorems -/

/-- C9: the MessageIdentity derivation is a deterministic function of its
inputs: two calls of `_generate_message_id` that agree on talker id,
sender id, timestamp, content key, sequence number and content produce
the same identity string (for the one md5 digest function of the
process). -/
theorem message_id_deterministic (md5hex8 : String → String) (t1 t2 : Int) (m1 m2 : Msg)
    (ht : t1 = t2) (hs : m1.sender_uid = m2.sender_uid) (hts : m1.timestamp = m2.timestamp)
    (hk : m1.msg_key = m2.msg_key) (hq : m1.msg_seqno = m2.msg_seqno)
    (hc : m1.content = m2.content) :
    generate_message_id md5hex8 t1 m1 = generate_message_id md5hex8 t2 m2 := by
  simp [generate_message_id, ht, hs, hts, hk, hq, hc]

/-- Witness for C9: two fixture messages differing only in `msg_type`
still receive the same identity. -/
theorem message_id_deterministic_witness :
    generate_message_id cMd5 5 cMsg = generate_message_id cMd5 5 { cMsg with msg_type := 2 } :=
  message_id_deterministic cMd5 5 5 cMsg { cMsg with msg_type := 2 } rfl rfl rfl rfl rfl rfl

/-- C7: a message from another user, of text type, not yet processed,
whose timestamp is more than 86400 seconds before the cycle time, is
skipped by the age gate of line 735: the pipeline stops before rule
matching, no state changes, and no transport call is made - for every
rule table whatsoever. -/
theorem stale_message_age_gate (env : Env) (talker_id session_type : Int)
    (st : WorkerState) (db : DbState) (m : Msg)
    (hown : toString m.sender_uid ≠ env.account_uid)
    (htype : m.msg_type = 1)
    (hdup : generate_message_id env.md5hex8 talker_id m ∉ st.processed_messages)
    (hstale : 86400 < env.current_time - m.timestamp) :
    process_message env talker_id session_type st db m =
      { st := st, db := db, sends := [], outcome := Outcome.skippedStale } := by
  simp [process_message, hown, htype, hdup, hstale]

/-- Witness for C7: the 25-hour-old fixture message (90000 seconds old)
is skipped as stale even though its text matches the enabled rule. -/
theorem stale_message_age_gate_witness :
    process_message cEnv 5 1 st0 db0 staleMsg =
      { st := st0, db := db0, sends := [], outcome := Outcome.skippedStale } :=
  stale_message_age_gate cEnv 5 1 st0 db0 staleMsg (by decide) rfl (by simp [st0])
    (by decide)

/-- C6 counterexample: with a configured scan interval of 5 seconds, the
empty-session-list branch still sleeps 8 seconds (the hard-coded literal
of line 616), not the configured interval. -/
theorem empty_sessions_sleep_cex :
    iteration_sleep_seconds 5 (SessionsFetch.fetched []) = 8 ∧
      iteration_sleep_seconds 5 (SessionsFetch.fetched []) ≠ 5 := by
  exact ⟨rfl, by decide⟩

/-- C6 amended: in every iteration whose fetched session list is empty,
the worker sleeps exactly 8 seconds, whatever the configured scan
interval is. -/
theorem empty_sessions_sleep_fixed_eight (scan_interval : Int) :
    iteration_sleep_seconds scan_interval (SessionsFetch.fetched []) = 8 := rfl

/-- C1: a message that survives every skip gate and matches a rule under
the daily limit never reaches delivery: line 787 reads `self.min_delay`,
an attribute `MessageManager` never assigns (`managerAttrNames`), so the
pipeline ends in the caught `AttributeError`, makes no transport call,
and leaves the persistence state unchanged - no randomized sleep and no
`send_message` ever happen. -/
theorem reply_delay_attribute_error (env : Env) (talker_id session_type : Int)
    (st : WorkerState) (db : DbState) (m : Msg)
    (hown : toString m.sender_uid ≠ env.account_uid)
    (htype : m.msg_type = 1)
    (hdup : generate_message_id env.md5hex8 talker_id m ∉ st.processed_messages)
    (hfresh : env.current_time - m.timestamp ≤ 86400)
    (hraw : m.content ≠ "")
    (htext : pyStrip (parsed_message_text env.libs m.content) ≠ "")
    (hmatch : match_auto_reply env.libs (pyStrip (parsed_message_text env.libs m.content)) env.rules ≠ none)
    (hlimit : ¬(0 < env.daily_limit ∧ env.daily_limit ≤ st.today_reply_count)) :
    (process_message env talker_id session_type st db m).outcome =
        Outcome.errorCaught attrErrMinDelay ∧
      (process_message env talker_id session_type st db m).sends = [] ∧
      (process_message env talker_id session_type st db m).db = db := by
  obtain ⟨rr, hrr⟩ := Option.ne_none_iff_exists'.mp hmatch
  have hnd : (minDelayName ∈ managerAttrNames) = False := by simp [minDelayName, managerAttrNames]
  simp [process_message, hown, htype, hdup, hraw, htext, hrr, hlimit, hnd,
    not_lt.mpr hfresh]

/-- Witness for C1: the fresh fixture message "hello" matches the enabled
contains-rule with the daily limit not reached, yet the pipeline ends in
the caught min_delay `AttributeError` with no transport call. -/
theorem reply_delay_attribute_error_witness :
    (process_message cEnv 5 1 st0 db0 cMsg).outcome = Outcome.errorCaught attrErrMinDelay ∧
      (process_message cEnv 5 1 st0 db0 cMsg).sends = [] ∧
      (process_message cEnv 5 1 st0 db0 cMsg).db = db0 :=
  reply_delay_attribute_error cEnv 5 1 st0 db0 cMsg (by decide) rfl (by simp [st0])
    (by decide) (by decide) (by decide) (by decide) (by decide)

/-- C2: on a delivery attempt that the transport reports as successful,
the code adds the identity to the replied set (lines 800-801) but then
calls `self.db.add_reply_log(...)` - a method `AutoReplyDatabase` does
not define (`databaseMethodNames`; its logging method is
`log_auto_reply`) - so the step ends in the caught `AttributeError`: no
success log entry is appended and neither counter is incremented. -/
theorem send_success_logging_error (env : Env) (talker_id session_type : Int)
    (msg_id message_text reply_content : String) (st : WorkerState) (db : DbState)
    (hsend : (env.sendResult talker_id reply_content).1 = true) :
    (deliver_and_record env talker_id session_type msg_id message_text reply_content st db).outcome
        = Outcome.errorCaught attrErrAddReplyLog ∧
      (deliver_and_record env talker_id session_type msg_id message_text reply_content st db).st.replied_messages
        = st.replied_messages ++ [msg_id] ∧
      (deliver_and_record env talker_id session_type msg_id message_text reply_content st db).db = db ∧
      (deliver_and_record env talker_id session_type msg_id message_text reply_content st db).st.today_reply_count
        = st.today_reply_count := by
  have h : (addReplyLogName ∈ databaseMethodNames) = False := by simp [addReplyLogName, databaseMethodNames]
  simp [deliver_and_record, hsend, h]

/-- Witness for C2: under the always-successful fixture transport, the
delivery block records the id in the replied set and then dies on the
missing `add_reply_log`, leaving log and counters untouched. -/
theorem send_success_logging_error_witness :
    (deliver_and_record cEnv 5 1 cMsgId helloText replyText st0 db0).outcome
        = Outcome.errorCaught attrErrAddReplyLog ∧
      (deliver_and_record cEnv 5 1 cMsgId helloText replyText st0 db0).st.replied_messages
        = st0.replied_messages ++ [cMsgId] ∧
      (deliver_and_record cEnv 5 1 cMsgId helloText replyText st0 db0).db = db0 ∧
      (deliver_and_record cEnv 5 1 cMsgId helloText replyText st0 db0).st.today_reply_count
        = st0.today_reply_count :=
  send_success_logging_error cEnv 5 1 cMsgId helloText replyText st0 db0 rfl

/-- A rule whose evaluation raises is declined by its loop iteration. -/
theorem ruleRaises_not_matches (libs : PyLibs) (t : String) (r : Rule)
    (h : ruleRaises libs t r = true) : ruleMatchesB libs t r = false := by
  unfold ruleRaises at h
  unfold ruleMatchesB
  by_cases hk : pyStrip r.keyword = ""
  · simp [hk] at h
  · by_cases hre : r.match_type = "regex"
    · simp [hk, hre] at h ⊢
      rw [h]
    · by_cases hwb : r.match_type = "word_boundary"
      · simp [hk, hre, hwb] at h ⊢
        rw [h]
      · simp [hk, hre, hwb] at h

/-- The rule loop is the first match over `ruleMatchesB`. -/
theorem matchLoop_eq_find (libs : PyLibs) (t : String) (l : List Rule) :
    matchLoop libs t l = (l.find? (ruleMatchesB libs t)).map mkMatchResult := by
  induction l with
  | nil => rfl
  | cons r rest ih =>
    by_cases h : ruleMatchesB libs t r
    · simp [matchLoop, h]
    · simp [matchLoop, h, ih]

/-- A result of the rule loop comes from a rule of the list that its
iteration accepted. -/
theorem matchLoop_some (libs : PyLibs) (t : String) (l : List Rule) (res : MatchResult)
    (h : matchLoop libs t l = some res) :
    ∃ r, r ∈ l ∧ ruleMatchesB libs t r = true ∧ res = mkMatchResult r := by
  rw [matchLoop_eq_find] at h
  obtain ⟨r, hr, hres⟩ := Option.map_eq_some'.mp h
  exact ⟨r, List.mem_of_find?_eq_some hr, List.find?_some hr, hres.symm⟩

/-- An accepted rule has a nonempty stripped keyword. -/
theorem ruleMatchesB_keyword_ne (libs : PyLibs) (t : String) (r : Rule)
    (h : ruleMatchesB libs t r = true) : pyStrip r.keyword ≠ "" := by
  intro hk
  unfold ruleMatchesB at h
  simp [hk] at h

/-- C8: a rule whose pattern makes `re.search` raise (match kind `regex`
or `word_boundary` with a malformed pattern) is caught per rule by the
handler of lines 386-388 and removed from consideration: the rule loop
over any list containing it returns exactly what the loop over the list
without it returns, so every later rule is still evaluated and a later
matching rule is still returned. -/
theorem malformed_regex_rule_skipped (libs : PyLibs) (t : String)
    (l1 l2 : List Rule) (r : Rule) (h : ruleRaises libs t r = true) :
    matchLoop libs t (l1 ++ r :: l2) = matchLoop libs t (l1 ++ l2) := by
  induction l1 with
  | nil => simp [matchLoop, ruleRaises_not_matches libs t r h]
  | cons a l ih =>
    by_cases ha : ruleMatchesB libs t a <;> simp [matchLoop, ha, ih]

/-- Witness for C8: the malformed fixture pattern raises, the loop with
the malformed rule in front equals the loop without it, and the later
contains-rule is still returned. -/
theorem malformed_regex_rule_skipped_witness :
    ruleRaises cLibs helloText badRegexRule = true ∧
      matchLoop cLibs helloText [badRegexRule, helloRule] =
        matchLoop cLibs helloText [helloRule] ∧
      matchLoop cLibs helloText [badRegexRule, helloRule] = some (mkMatchResult helloRule) :=
  ⟨by decide,
   malformed_regex_rule_skipped cLibs helloText [] [helloRule] badRegexRule (by decide),
   by decide⟩

/-- C10: the matcher is total and never propagates an exception: for
every text and rule table it returns either `None` or a record built from
an enabled rule of the table whose stripped keyword is nonempty - so a
rule whose keyword strips to the empty string is never the match - and
empty or whitespace-only text always yields `None`. -/
theorem matcher_total_never_raises (libs : PyLibs) (text : String) (table : List Rule) :
    (match_auto_reply libs text table = none ∨
      ∃ r, r ∈ table ∧ r.enabled = true ∧ pyStrip r.keyword ≠ "" ∧
        match_auto_reply libs text table = some (mkMatchResult r)) ∧
      (pyStrip text = "" → match_auto_reply libs text table = none) := by
  constructor
  · cases hm : match_auto_reply libs text table with
    | none => exact Or.inl rfl
    | some res =>
      right
      unfold match_auto_reply at hm
      by_cases hb : pyStrip text = ""
      · simp [hb] at hm
      · rw [if_neg hb] at hm
        obtain ⟨r, hmem, hmatch, hres⟩ := matchLoop_some _ _ _ _ hm
        have hmem1 : r ∈ get_auto_reply_rules table true :=
          (List.perm_insertionSort pyPrioLe _).mem_iff.mp hmem
        have hmem2 : r ∈ table.filter fun q => q.enabled := by
          unfold get_auto_reply_rules at hmem1
          simpa using (List.perm_insertionSort sqlRuleLe _).mem_iff.mp hmem1
        rw [List.mem_filter] at hmem2
        exact ⟨r, hmem2.1, hmem2.2, ruleMatchesB_keyword_ne libs text r hmatch,
          congrArg some hres⟩
  · intro hb
    unfold match_auto_reply
    rw [if_pos hb]

/-- Witness for C10: whitespace-only text yields `None` on the fixture
table. -/
theorem matcher_total_never_raises_witness :
    match_auto_reply cLibs blankText [helloRule] = none :=
  (matcher_total_never_raises cLibs blankText [helloRule]).2 (by decide)

/-- C5 counterexample: insert `newId` into a processed set holding the
1000 ids of `testIds` (insertion order), so the cap overflows; under the
reverse enumeration of the set - one of the orders the hash set is free
to produce for `list(self.processed_messages)` - the just-inserted,
newest id `newId` is itself among the 500 discarded entries.  The evicted
half is therefore not the 500 least-recently-inserted identities, and the
newer half is not retained. -/
theorem processed_eviction_not_oldest_cex :
    1000 < (testIds ++ [newId]).length ∧
      newId ∉ mark_processed List.reverse testIds newId := by
  constructor
  · simp [testIds]
  · simp only [mark_processed]
    rw [if_pos (by simp [testIds])]
    intro hmem
    rw [List.mem_filter] at hmem
    have hold : newId ∈ (List.reverse (testIds ++ [newId])).take 500 := by
      rw [List.reverse_append, List.reverse_singleton, List.singleton_append,
        show (500 : Nat) = 499 + 1 from rfl, List.take_succ_cons]
      exact List.mem_cons_self _ _
    simp [hold] at hmem

/-- Counting helper: removing a duplicate-free sublist-by-membership from
a duplicate-free list removes exactly its length. -/
theorem filter_not_mem_length (l old : List String)
    (hnd : l.Nodup) (hndold : old.Nodup) (hsub : old ⊆ l) :
    (l.filter fun x => decide (x ∉ old)).length = l.length - old.length := by
  have hpf : (l.filter fun x => decide (x ∈ old)).Perm old := by
    rw [List.perm_ext_iff_of_nodup (hnd.filter _) hndold]
    intro a
    rw [List.mem_filter]
    constructor
    · intro h
      simpa using h.2
    · intro h
      exact ⟨hsub h, by simpa using h⟩
  have hp := (List.filter_append_perm (fun x => decide (x ∈ old)) l).length_eq
  rw [List.length_append] at hp
  have hcongr : (l.filter fun x => !decide (x ∈ old)) = l.filter fun x => decide (x ∉ old) :=
    List.filter_congr fun x _ => by simp
  rw [hcongr] at hp
  have hpl := hpf.length_eq
  omega

/-- C5 amended: starting from a duplicate-free processed set of at most
1000 ids, one insertion step of lines 739-747 leaves at most 1000 ids;
when the insertion overflows the cap (reaching 1001), exactly 500 entries
are discarded - the first 500 of the set enumeration, which need not be
the oldest - leaving exactly 501.  Holds for every enumeration that is a
permutation of the set. -/
theorem processed_cap_bound (setOrderOf : List String → List String)
    (hperm : ∀ l, (setOrderOf l).Perm l)
    (processed : List String) (msg_id : String)
    (hnd : (processed ++ [msg_id]).Nodup)
    (hlen : processed.length ≤ 1000) :
    (mark_processed setOrderOf processed msg_id).length ≤ 1000 ∧
      (1000 < processed.length + 1 →
        (mark_processed setOrderOf processed msg_id).length = 501) := by
  have hlap : (processed ++ [msg_id]).length = processed.length + 1 := by simp
  by_cases hov : 1000 < (processed ++ [msg_id]).length
  · have hmark : mark_processed setOrderOf processed msg_id =
        (processed ++ [msg_id]).filter
          fun x => decide (x ∉ (setOrderOf (processed ++ [msg_id])).take 500) := by
      simp only [mark_processed]
      rw [if_pos hov]
    have hpl := hperm (processed ++ [msg_id])
    have hndso : (setOrderOf (processed ++ [msg_id])).Nodup := hpl.symm.nodup hnd
    have hndold : ((setOrderOf (processed ++ [msg_id])).take 500).Nodup :=
      (List.take_sublist 500 (setOrderOf (processed ++ [msg_id]))).nodup hndso
    have hsub : (setOrderOf (processed ++ [msg_id])).take 500 ⊆ processed ++ [msg_id] :=
      fun x hx => hpl.subset (List.take_subset 500 _ hx)
    have h1001 : (processed ++ [msg_id]).length = 1001 := by omega
    have holdlen : ((setOrderOf (processed ++ [msg_id])).take 500).length = 500 := by
      rw [List.length_take, hpl.length_eq, h1001]
      decide
    have hflen := filter_not_mem_length (processed ++ [msg_id]) _ hnd hndold hsub
    rw [hmark, hflen, holdlen, h1001]
    exact ⟨by omega, fun _ => by omega⟩
  · have hmark : mark_processed setOrderOf processed msg_id = processed ++ [msg_id] := by
      simp only [mark_processed]
      rw [if_neg hov]
    rw [hmark]
    exact ⟨by omega, fun h => by omega⟩

/-- Witness for C5 amended: inserting into the empty set under the
identity enumeration respects the cap. -/
theorem processed_cap_bound_witness :
    (([] : List String) ++ [newId]).Nodup ∧
      ((mark_processed id [] newId).length ≤ 1000 ∧
        (1000 < ([] : List String).length + 1 → (mark_processed id [] newId).length = 501)) :=
  ⟨by decide,
   processed_cap_bound id (fun l => List.Perm.refl l) [] newId (by decide) (by decide)⟩

/-- Delivery never touches the processed set. -/
theorem deliver_processed_eq (env : Env) (talker_id session_type : Int) (msg_id : String)
    (message_text reply_content : String) (st : WorkerState) (db : DbState) :
    (deliver_and_record env talker_id session_type msg_id message_text reply_content st db).st.processed_messages
      = st.processed_messages := by
  simp only [deliver_and_record]
  split
  · split
    · rfl
    · rfl
  · split
    · rfl
    · rfl

/-- An id that the enumeration never places among the first 500 survives
an insertion step of the processed set. -/
theorem mark_processed_keeps (setOrderOf : List String → List String)
    (processed : List String) (msg_id x : String)
    (hx : x ∈ processed)
    (hnoev : ∀ l, x ∉ (setOrderOf l).take 500) :
    x ∈ mark_processed setOrderOf processed msg_id := by
  simp only [mark_processed]
  split
  · rw [List.mem_filter]
    exact ⟨List.mem_append_left _ hx, by simpa using hnoev (processed ++ [msg_id])⟩
  · exact List.mem_append_left _ hx

/-- An id in the processed set stays in it across one pipeline step,
provided the enumeration never selects it for eviction. -/
theorem process_message_keeps (env : Env) (talker_id session_type : Int)
    (st : WorkerState) (db : DbState) (m : Msg) (x : String)
    (hx : x ∈ st.processed_messages)
    (hnoev : ∀ l, x ∉ (env.setOrderOf l).take 500) :
    x ∈ (process_message env talker_id session_type st db m).st.processed_messages := by
  have hkeep := mark_processed_keeps env.setOrderOf st.processed_messages
    (generate_message_id env.md5hex8 talker_id m) x hx hnoev
  simp only [process_message]
  split
  · exact hx
  · split
    · exact hx
    · split
      · exact hx
      · split
        · exact hx
        · split
          · exact hkeep
          · split
            · exact hkeep
            · split
              · exact hkeep
              · split
                · exact hkeep
                · split
                  · rw [deliver_processed_eq]
                    exact hkeep
                  · exact hkeep

/-- A message whose identity is already in the processed set produces no
transport call and no state change: the step exits at one of the three
gates that precede the insertion. -/
theorem process_message_no_send_of_dup (env : Env) (talker_id session_type : Int)
    (st : WorkerState) (db : DbState) (m : Msg)
    (hdup : generate_message_id env.md5hex8 talker_id m ∈ st.processed_messages) :
    (process_message env talker_id session_type st db m).sends = [] ∧
      ((process_message env talker_id session_type st db m).outcome = Outcome.skippedOwn ∨
       (process_message env talker_id session_type st db m).outcome = Outcome.skippedNonText ∨
       (process_message env talker_id session_type st db m).outcome = Outcome.skippedDup) ∧
      (process_message env talker_id session_type st db m).st = st ∧
      (process_message env talker_id session_type st db m).db = db := by
  by_cases hown : toString m.sender_uid = env.account_uid
  · simp [process_message, hown]
  · by_cases htype : m.msg_type = 1
    · simp [process_message, hown, htype, hdup]
    · simp [process_message, hown, htype]

/-- C3: at-most-once delivery per identity.  If an identity `x` is in the
processed set and the enumeration never selects `x` for eviction, then in
any later run over any messages, every message whose identity is `x`
yields no transport call and exits at a skip gate (its outcome is
own-message, non-text, or already-processed): the reply path is never
reached for `x` again in this process. -/
theorem processed_dedup_at_most_once (env : Env) (talker_id session_type : Int)
    (ms : List Msg) (st : WorkerState) (db : DbState) (x : String)
    (hx : x ∈ st.processed_messages)
    (hnoev : ∀ l, x ∉ (env.setOrderOf l).take 500) :
    ∀ i (hi : i < ms.length),
      generate_message_id env.md5hex8 talker_id (ms.get ⟨i, hi⟩) = x →
      ∃ hlen : i < (process_messages env talker_id session_type st db ms).2.2.length,
        ((process_messages env talker_id session_type st db ms).2.2.get ⟨i, hlen⟩).2 = [] ∧
        (((process_messages env talker_id session_type st db ms).2.2.get ⟨i, hlen⟩).1 = Outcome.skippedOwn ∨
         ((process_messages env talker_id session_type st db ms).2.2.get ⟨i, hlen⟩).1 = Outcome.skippedNonText ∨
         ((process_messages env talker_id session_type st db ms).2.2.get ⟨i, hlen⟩).1 = Outcome.skippedDup) := by
  induction ms generalizing st db with
  | nil =>
    intro i hi
    simp at hi
  | cons m ms ih =>
    intro i hi hid
    cases i with
    | zero =>
      have hid0 : generate_message_id env.md5hex8 talker_id m = x := by
        simpa using hid
      have hstep := process_message_no_send_of_dup env talker_id session_type st db m
        (hid0 ▸ hx)
      refine ⟨by simp [process_messages], ?_, ?_⟩
      · simpa [process_messages] using hstep.1
      · simpa [process_messages] using hstep.2.1
    | succ j =>
      have hx1 := process_message_keeps env talker_id session_type st db m x hx hnoev
      have hj : j < ms.length := by simpa using hi
      have hidj : generate_message_id env.md5hex8 talker_id (ms.get ⟨j, hj⟩) = x := by
        simpa using hid
      obtain ⟨hlen, hsends, hout⟩ :=
        ih (process_message env talker_id session_type st db m).st
          (process_message env talker_id session_type st db m).db hx1 j hj hidj
      refine ⟨by simpa [process_messages] using Nat.succ_lt_succ hlen, ?_, ?_⟩
      · simpa [process_messages] using hsends
      · simpa [process_messages] using hout

/-- Witness for C3: with `cMsgId` already processed, running the worker
over the same message again yields the already-processed outcome and no
transport call. -/
theorem processed_dedup_at_most_once_witness :
    ∃ hlen : 0 < (process_messages cEnv 5 1 stDup db0 [cMsg]).2.2.length,
      ((process_messages cEnv 5 1 stDup db0 [cMsg]).2.2.get ⟨0, hlen⟩).2 = [] ∧
      (((process_messages cEnv 5 1 stDup db0 [cMsg]).2.2.get ⟨0, hlen⟩).1 = Outcome.skippedOwn ∨
       ((process_messages cEnv 5 1 stDup db0 [cMsg]).2.2.get ⟨0, hlen⟩).1 = Outcome.skippedNonText ∨
       ((process_messages cEnv 5 1 stDup db0 [cMsg]).2.2.get ⟨0, hlen⟩).1 = Outcome.skippedDup) :=
  processed_dedup_at_most_once cEnv 5 1 [cMsg] stDup db0 cMsgId (by decide)
    (fun l => by simp [cEnv]) 0 (by decide) (by decide)

/-- C4: first-match in priority order.  Under distinct creation times for
the enabled rules (listed in creation order) and non-blank text, the
matcher is exactly: order the enabled rules by priority descending, ties
by creation order first-created first (the order `ord`, pinned by the
antisymmetric pairwise relation together with the permutation), return
the first rule of that order accepted by its loop iteration, `None` if
none is - in particular `None` exactly when no enabled rule matches. -/
theorem matcher_first_rule_priority_order (libs : PyLibs) (text : String) (table : List Rule)
    (htext : pyStrip text ≠ "")
    (hct : (table.filter fun r => r.enabled).Pairwise
      fun a b => a.created_time < b.created_time) :
    ∃ ord : List Rule,
      (table.filter fun r => r.enabled).Perm ord ∧
      ord.Pairwise (fun a b => b.priority < a.priority ∨
        (a.priority = b.priority ∧ a.created_time < b.created_time)) ∧
      match_auto_reply libs text table =
        (ord.find? (ruleMatchesB libs text)).map mkMatchResult ∧
      (match_auto_reply libs text table = none ↔
        ∀ r ∈ table.filter (fun q => q.enabled), ruleMatchesB libs text r = false) := by
  have hsorted1 : (List.insertionSort sqlRuleLe (table.filter fun r => r.enabled)).Pairwise
      sqlRuleLe :=
    List.sorted_insertionSort sqlRuleLe (table.filter fun r => r.enabled)
  have hperm1 : (List.insertionSort sqlRuleLe (table.filter fun r => r.enabled)).Perm
      (table.filter fun r => r.enabled) :=
    List.perm_insertionSort sqlRuleLe (table.filter fun r => r.enabled)
  have hctnd : ((table.filter fun r => r.enabled).map fun r => r.created_time).Nodup :=
    List.pairwise_map.mpr (hct.imp fun h => Nat.ne_of_lt h)
  have hctnd1 : ((List.insertionSort sqlRuleLe (table.filter fun r => r.enabled)).map
      fun r => r.created_time).Nodup :=
    ((hperm1.map fun r => r.created_time).symm).nodup hctnd
  have hctne : (List.insertionSort sqlRuleLe (table.filter fun r => r.enabled)).Pairwise
      fun a b => a.created_time ≠ b.created_time :=
    List.pairwise_map.mp hctnd1
  have hstrict : (List.insertionSort sqlRuleLe (table.filter fun r => r.enabled)).Pairwise
      fun a b => b.priority < a.priority ∨
        (a.priority = b.priority ∧ a.created_time < b.created_time) := by
    refine (hsorted1.and hctne).imp ?_
    intro a b h
    obtain ⟨hle, hne⟩ := h
    unfold sqlRuleLe at hle
    omega
  have hs2 : List.insertionSort pyPrioLe
      (List.insertionSort sqlRuleLe (table.filter fun r => r.enabled)) =
      List.insertionSort sqlRuleLe (table.filter fun r => r.enabled) := by
    apply List.Sorted.insertionSort_eq
    refine hstrict.imp ?_
    intro a b h
    unfold pyPrioLe
    omega
  have hget : get_auto_reply_rules table true =
      List.insertionSort sqlRuleLe (table.filter fun r => r.enabled) := by
    simp [get_auto_reply_rules]
  have heq : match_auto_reply libs text table =
      ((List.insertionSort sqlRuleLe (table.filter fun r => r.enabled)).find?
        (ruleMatchesB libs text)).map mkMatchResult := by
    unfold match_auto_reply
    rw [if_neg htext, hget, hs2, matchLoop_eq_find]
  refine ⟨List.insertionSort sqlRuleLe (table.filter fun r => r.enabled),
    hperm1.symm, hstrict, heq, ?_⟩
  rw [heq, Option.map_eq_none', List.find?_eq_none]
  constructor
  · intro h r hr
    have hh := h r (hperm1.mem_iff.mpr hr)
    simpa using hh
  · intro h r hr
    have hh := h r (hperm1.mem_iff.mp hr)
    simp [hh]

/-- Witness for C4: the priority example of the spec - rule A of
priority 5 (contains) and rule B of priority 10 (exact), message "cat" -
satisfies the order theorem, and the matcher resolves to rule B. -/
theorem matcher_first_rule_priority_order_witness :
    (∃ ord : List Rule,
      ([ruleA, ruleB].filter fun r => r.enabled).Perm ord ∧
      ord.Pairwise (fun a b => b.priority < a.priority ∨
        (a.priority = b.priority ∧ a.created_time < b.created_time)) ∧
      match_auto_reply cLibs catText [ruleA, ruleB] =
        (ord.find? (ruleMatchesB cLibs catText)).map mkMatchResult ∧
      (match_auto_reply cLibs catText [ruleA, ruleB] = none ↔
        ∀ r ∈ [ruleA, ruleB].filter (fun q => q.enabled),
          ruleMatchesB cLibs catText r = false)) ∧
      match_auto_reply cLibs catText [ruleA, ruleB] = some (mkMatchResult ruleB) :=
  ⟨matcher_first_rule_priority_order cLibs catText [ruleA, ruleB] (by decide) (by decide),
   by decide⟩
